import Mathlib

/-!
Verification of the now-playing resolution and matching pipeline of the
npo_top2000 Home Assistant integration.  Python strings are embedded as
lists of characters, SQLite rows as structures, and awaited calls whose
results come from outside the functions under study (HTTP fetches,
database reads and writes, service calls) as oracle fields of explicit
environment records.  A call that may raise an exception is given an
`Outcome` oracle; the control flow of the Python source is translated
branch by branch.
-/

/-- A Python string, embedded as its list of characters. -/
abbrev Str := List Char

/-- Python str.lower(), character by character (ASCII case folding). -/
def pyLower (s : Str) : Str := s.map Char.toLower

/-- Result of one awaited call that may raise: either a value or an
exception. -/
inductive Outcome (α : Type) where
  | ok : α → Outcome α
  | exn : Outcome α
  deriving DecidableEq

/-! ## Fuzzy scoring (rapidfuzz)

Modelled from the spec: the repository calls rapidfuzz's
fuzz.partial_ratio, an external library whose code is not part of this
repository.  Per its documentation and the spec's description, it is a
0-100 similarity that finds the optimal alignment of the shorter string
inside the longer one and returns the plain indel ratio of that
alignment; the indel ratio of two strings of lengths m and n at longest
common subsequence l is 100 * 2l / (m + n) (100 when both are empty). -/

/-- Length of the longest common subsequence, driven by explicit fuel so
that it is structurally recursive (the fuel is always at least the sum
of the lengths at the call sites). -/
def lcsLenAux : Nat → Str → Str → Nat
  | 0, _, _ => 0
  | _ + 1, [], _ => 0
  | _ + 1, _ :: _, [] => 0
  | fuel + 1, a :: as, b :: bs =>
    if a = b then lcsLenAux fuel as bs + 1
    else max (lcsLenAux fuel (a :: as) bs) (lcsLenAux fuel as (b :: bs))

/-- Length of the longest common subsequence of two strings. -/
def lcsLen (s t : Str) : Nat := lcsLenAux (s.length + t.length) s t

/-- rapidfuzz fuzz.ratio: normalized indel similarity, 0-100. -/
def fuzzRatio (s t : Str) : ℚ :=
  if s.length + t.length = 0 then 100
  else (200 * (lcsLen s t : ℚ)) / ((s.length : ℚ) + (t.length : ℚ))

/-- All contiguous substrings of a string (with repetitions). -/
def substrings (s : Str) : List Str := s.tails.flatMap List.inits

/-- rapidfuzz fuzz.partial_ratio: the best fuzz.ratio between the
shorter string and any contiguous substring of the longer one. -/
def partial_ratio (s t : Str) : ℚ :=
  if s.length ≤ t.length then ((substrings t).map (fuzzRatio s)).foldl max 0
  else ((substrings s).map (fuzzRatio t)).foldl max 0

/-! ## Catalog rows and the matcher (database.py) -/

/-- A row of the songs table, as selected by match_song. -/
structure SongRow where
  id : Nat
  position : Int
  artist : Str
  title : Str
  year : Option Int := none
  cover_art_url : Option Str := none
  cover_art_cached_at : Option Int := none
  deriving DecidableEq

/-- FUZZY_MATCH_THRESHOLD from const.py. -/
def FUZZY_MATCH_THRESHOLD : ℚ := 85

/-- The combined score match_song computes for one catalog row:
partial_ratio on lowered artist and title, averaged. -/
def combined_score (artist title : Str) (song : SongRow) : ℚ :=
  (partial_ratio (pyLower artist) (pyLower song.artist)
    + partial_ratio (pyLower title) (pyLower song.title)) / 2

/-- One iteration of match_song's loop: the candidate replaces the best
seen so far only when its combined score is strictly greater and clears
the threshold. -/
def matchStep (artist title : Str) (st : Option SongRow × ℚ) (song : SongRow) :
    Option SongRow × ℚ :=
  if st.2 < combined_score artist title song ∧
      FUZZY_MATCH_THRESHOLD ≤ combined_score artist title song
  then (some song, combined_score artist title song) else st

/-- The full scan of DatabaseManager.match_song over the songs table,
returning the final (best_match, best_score) pair. -/
def match_scan (artist title : Str) (songs : List SongRow) : Option SongRow × ℚ :=
  songs.foldl (matchStep artist title) (none, 0)

/-- DatabaseManager.match_song: the best match, or none when no row
cleared the threshold. -/
def match_song (artist title : Str) (songs : List SongRow) : Option SongRow :=
  (match_scan artist title songs).1

/-! ## Sample catalog rows used to instantiate the theorems -/

/-- A catalog row with artist "aa" and title "bb". -/
def rowAA : SongRow := { id := 1, position := 1, artist := "aa".data, title := "bb".data }

/-- A second catalog row with the same artist and title strings as rowAA
but a different id and position. -/
def rowAA2 : SongRow := { id := 2, position := 2, artist := "aa".data, title := "bb".data }

/-- A catalog row whose artist and title strictly contain those of rowB. -/
def rowAB : SongRow := { id := 1, position := 1, artist := "ab".data, title := "cd".data }

/-- A catalog row with single-character artist and title. -/
def rowB : SongRow := { id := 2, position := 2, artist := "b".data, title := "d".data }

/-- A catalog row whose artist and title contain a space. -/
def rowWs : SongRow := { id := 1, position := 1, artist := " a".data, title := " b".data }

/-! ## Notification rules and settings (database.py, coordinator.py) -/

/-- A row of the notification_rules table. -/
structure NotificationRule where
  id : Nat
  rule_type : Str
  match_pattern : Str
  enabled : Bool
  deriving DecidableEq

/-- RULE_TYPE_ARTIST from const.py. -/
def RULE_TYPE_ARTIST : Str := "artist".data

/-- RULE_TYPE_TITLE from const.py. -/
def RULE_TYPE_TITLE : Str := "title".data

/-- RULE_TYPE_POSITION_RANGE from const.py. -/
def RULE_TYPE_POSITION_RANGE : Str := "position_range".data

/-- DatabaseManager.get_notification_rules: the rules table, filtered to
enabled rules when enabled_only is set. -/
def get_notification_rules (allRules : List NotificationRule) (enabled_only : Bool) :
    List NotificationRule :=
  if enabled_only then allRules.filter (fun r => r.enabled) else allRules

/-- The loop of _matches_notification_rules: rules are tested in stored
order; an artist rule matches when its lowered pattern is a substring of
the lowered artist, a title rule likewise against the title, a
position_range rule falls through (to be implemented), and the first
match returns true. -/
def matches_rules_loop (artistL titleL : Str) : List NotificationRule → Bool
  | [] => false
  | r :: rest =>
    if r.rule_type = RULE_TYPE_ARTIST ∧ pyLower r.match_pattern <:+: artistL then true
    else if r.rule_type = RULE_TYPE_TITLE ∧ pyLower r.match_pattern <:+: titleL then true
    else matches_rules_loop artistL titleL rest

/-- Top2000DataUpdateCoordinator._matches_notification_rules. -/
def matches_notification_rules (song : SongRow) (rules : List NotificationRule) : Bool :=
  if rules.isEmpty then false
  else matches_rules_loop (pyLower song.artist) (pyLower song.title) rules

/-- The notification_settings singleton row as returned by
DatabaseManager.get_notification_settings (defaults applied). -/
structure NotificationSettings where
  notification_targets : List Str
  notify_current_song : Bool
  notify_upcoming_song : Bool
  upcoming_notify_positions : List Int
  deriving DecidableEq

/-! ## The coordinator tick (coordinator.py)

The tick function _async_update_data is embedded with an explicit
environment of oracles, one per awaited call whose result is produced
outside the function (metadata acquisition, the database, the cover-art
client, service calls).  Side effects are recorded as an ordered list of
attempted externally visible calls, and each compound step returns the
effects it attempted together with a flag telling whether it raised. -/

/-- An observation dict returned by NPOClient.get_current_metadata. -/
structure NpoMetadata where
  artist : Str
  title : Str
  cover_art_url : Option Str := none
  deriving DecidableEq

/-- Externally visible side-effect calls attempted during a tick. -/
inductive Effect where
  | update_cover_art (song_id : Nat) (url : Str)
  | cover_art_lookup (song_id : Nat)
  | persist_state (position : Int) (song_id : Nat)
  | notify (song_id : Nat) (is_current : Bool) (target : Str)
  deriving DecidableEq

/-- Oracles for one coordinator tick: the result of each awaited
external call, as an Outcome when the call can raise.  The cover-art
client's get_cover_art catches all its exceptions internally and so is a
plain pair (cover_art_url, musicbrainz_id). -/
structure TickEnv where
  npo_metadata : Outcome (Option NpoMetadata)
  match_result : Outcome (Option SongRow)
  update_cover_art : Outcome Unit
  is_cover_art_cached : Outcome Bool
  cover_art_lookup : Option Str × Option Str
  update_playlist_state : Outcome Unit
  settings : Outcome NotificationSettings
  rules : Outcome (List NotificationRule)
  song_at : Int → Outcome (Option SongRow)

/-- Top2000DataUpdateCoordinator._fetch_and_cache_cover_art: adopt the
NPO cover url directly when present, otherwise skip when the entry's
cached art is still valid, otherwise consult the cover-art client and
persist a returned url.  Returns the attempted effects and whether the
step raised. -/
def fetch_and_cache_cover_art (env : TickEnv) (song : SongRow) (npo_cover_url : Option Str) :
    List Effect × Bool :=
  match npo_cover_url with
  | some url =>
    ([Effect.update_cover_art song.id url],
      match env.update_cover_art with
      | .ok _ => false
      | .exn => true)
  | none =>
    match env.is_cover_art_cached with
    | .exn => ([], true)
    | .ok true => ([], false)
    | .ok false =>
      match env.cover_art_lookup.1 with
      | some url =>
        ([Effect.cover_art_lookup song.id, Effect.update_cover_art song.id url],
          match env.update_cover_art with
          | .ok _ => false
          | .exn => true)
      | none => ([Effect.cover_art_lookup song.id], false)

/-- Top2000DataUpdateCoordinator._send_notification: one service-call
attempt per configured target; a failing target is caught and does not
block the remaining targets, so the step never raises. -/
def send_notification (song : SongRow) (settings : NotificationSettings) (is_current : Bool) :
    List Effect :=
  settings.notification_targets.map (fun t => Effect.notify song.id is_current t)

/-- Top2000DataUpdateCoordinator._check_and_send_notifications: the type
gate over the freshly read settings, then the rule gate over the
enabled rules, then dispatch. -/
def check_and_send_notifications (env : TickEnv) (song : SongRow) (is_current : Bool) :
    List Effect × Bool :=
  match env.settings with
  | .exn => ([], true)
  | .ok s =>
    if is_current ∧ ¬ s.notify_current_song then ([], false)
    else if ¬ is_current ∧ ¬ s.notify_upcoming_song then ([], false)
    else
      match env.rules with
      | .exn => ([], true)
      | .ok rl =>
        if matches_notification_rules song (get_notification_rules rl true) then
          (send_notification song s is_current, false)
        else ([], false)

/-- The offset loop of async_check_upcoming_notifications: for each
configured offset, compute current_position - offset, skip it when below
1, look the position up, and dispatch when the entry matches the enabled
rules. -/
def check_upcoming_loop (env : TickEnv) (s : NotificationSettings) (current_position : Int) :
    List Int → List Effect × Bool
  | [] => ([], false)
  | offset :: rest =>
    if current_position - offset < 1 then check_upcoming_loop env s current_position rest
    else
      match env.song_at (current_position - offset) with
      | .exn => ([], true)
      | .ok none => check_upcoming_loop env s current_position rest
      | .ok (some u) =>
        match env.rules with
        | .exn => ([], true)
        | .ok rl =>
          if matches_notification_rules u (get_notification_rules rl true) then
            (send_notification u s false ++ (check_upcoming_loop env s current_position rest).1,
              (check_upcoming_loop env s current_position rest).2)
          else check_upcoming_loop env s current_position rest

/-- Top2000DataUpdateCoordinator.async_check_upcoming_notifications:
no-op without a tracked current song; re-reads settings and runs the
offset loop only when upcoming notifications are enabled. -/
def async_check_upcoming_notifications (env : TickEnv) (data_current_song : Option SongRow) :
    List Effect × Bool :=
  match data_current_song with
  | none => ([], false)
  | some cur =>
    match env.settings with
    | .exn => ([], true)
    | .ok s =>
      if ¬ s.notify_upcoming_song then ([], false)
      else check_upcoming_loop env s cur.position s.upcoming_notify_positions

/-- The dict _async_update_data returns (or the UpdateFailed it
raises). -/
inductive TickResult where
  | update_failed
  | no_metadata
  | no_match
  | song_data (song : SongRow) (song_changed : Bool)
  deriving DecidableEq

/-- Top2000DataUpdateCoordinator._async_update_data: acquire metadata,
match it, detect a song change, and on a change update _last_song_id and
then run the four side-effect steps in order inside the single
try/except that converts any exception into UpdateFailed.  Arguments:
the tracked _last_song_id and the current_song of the coordinator data
left by the previous tick (read by the upcoming check).  Returns the new
_last_song_id, the tick result, and the attempted effects in order. -/
def async_update_data (last_song_id : Option Nat) (data_current_song : Option SongRow)
    (env : TickEnv) : Option Nat × TickResult × List Effect :=
  match env.npo_metadata with
  | .exn => (last_song_id, .update_failed, [])
  | .ok none => (last_song_id, .no_metadata, [])
  | .ok (some md) =>
    match env.match_result with
    | .exn => (last_song_id, .update_failed, [])
    | .ok none => (last_song_id, .no_match, [])
    | .ok (some song) =>
      if some song.id ≠ last_song_id then
        match fetch_and_cache_cover_art env song md.cover_art_url with
        | (e3, true) => (some song.id, .update_failed, e3)
        | (e3, false) =>
          match env.update_playlist_state with
          | .exn =>
            (some song.id, .update_failed, e3 ++ [Effect.persist_state song.position song.id])
          | .ok _ =>
            match check_and_send_notifications env song true with
            | (e5, true) =>
              (some song.id, .update_failed,
                e3 ++ [Effect.persist_state song.position song.id] ++ e5)
            | (e5, false) =>
              match async_check_upcoming_notifications env data_current_song with
              | (e6, true) =>
                (some song.id, .update_failed,
                  e3 ++ [Effect.persist_state song.position song.id] ++ e5 ++ e6)
              | (e6, false) =>
                (some song.id, .song_data song true,
                  e3 ++ [Effect.persist_state song.position song.id] ++ e5 ++ e6)
      else (last_song_id, .song_data song false, [])

/-! ## Upcoming songs (database.py, coordinator.py) -/

/-- DatabaseManager.get_upcoming_songs: rows with position strictly
below the current one, ordered by position descending, limited to
count. -/
def get_upcoming_songs (songs : List SongRow) (current_position : Int) (count : Nat) :
    List SongRow :=
  (List.insertionSort (fun a b => b.position ≤ a.position)
    (songs.filter (fun s => decide (s.position < current_position)))).take count

/-- The coordinator data dict relevant to async_get_upcoming_songs. -/
structure CoordinatorData where
  current_song : Option SongRow
  deriving DecidableEq

/-- Top2000DataUpdateCoordinator.async_get_upcoming_songs: empty when no
coordinator data or no tracked current song, otherwise the database
query at the tracked position. -/
def async_get_upcoming_songs (data : Option CoordinatorData) (songs : List SongRow)
    (count : Nat) : List SongRow :=
  match data with
  | none => []
  | some d =>
    match d.current_song with
    | none => []
    | some cur => get_upcoming_songs songs cur.position count

/-! ## The metadata client (npo_client.py) -/

/-- The in-memory cache of NPOClient (timestamps in seconds). -/
structure NpoClientState where
  last_fetch : Option Int
  cached_metadata : Option NpoMetadata
  deriving DecidableEq

/-- Oracles for one get_current_metadata call: the clock and the result
each of the three scraping strategies would produce. -/
structure NpoEnv where
  now : Int
  npo_website : Outcome (Option NpoMetadata)
  icecast : Outcome (Option NpoMetadata)
  onlineradiobox : Outcome (Option NpoMetadata)

/-- The three fallback stages, in chain order. -/
inductive Stage where
  | npo_website
  | icecast
  | onlineradiobox
  deriving DecidableEq

/-- The observation-cache time to live of NPOClient (30 seconds). -/
def NPO_CACHE_SECONDS : Int := 30

/-- The cache guard of get_current_metadata: cached metadata and a fetch
time exist and the cache is within its time to live. -/
def cache_fresh (st : NpoClientState) (now : Int) : Bool :=
  match st.cached_metadata, st.last_fetch with
  | some _, some t => decide (now - t < NPO_CACHE_SECONDS)
  | _, _ => false

/-- What one fallback stage contributes: its metadata when it returned a
dict, and nothing when it raised (caught locally) or returned None. -/
def stage_yield (o : Outcome (Option NpoMetadata)) : Option NpoMetadata :=
  match o with
  | .ok (some m) => some m
  | _ => none

/-- NPOClient.get_current_metadata: serve a fresh cache without any
upstream contact, otherwise walk the three stages in order, caching and
returning the first produced observation; a stage's exception is caught
locally and the chain proceeds.  Returns the new client state, the
result, and the stages attempted. -/
def get_current_metadata (st : NpoClientState) (env : NpoEnv) :
    NpoClientState × Option NpoMetadata × List Stage :=
  if cache_fresh st env.now then (st, st.cached_metadata, [])
  else
    match stage_yield env.npo_website with
    | some m => (⟨some env.now, some m⟩, some m, [.npo_website])
    | none =>
      match stage_yield env.icecast with
      | some m => (⟨some env.now, some m⟩, some m, [.npo_website, .icecast])
      | none =>
        match stage_yield env.onlineradiobox with
        | some m =>
          (⟨some env.now, some m⟩, some m, [.npo_website, .icecast, .onlineradiobox])
        | none => (st, none, [.npo_website, .icecast, .onlineradiobox])

/-! ## Concrete data used by the witnesses and the counterexample -/

/-- A catalog row at position 499 by Queen. -/
def queenSong : SongRow :=
  { id := 42, position := 499, artist := "Queen".data, title := "Bohemian Rhapsody".data }

/-- A catalog row at position 500, the tracked current song of the
upcoming-notification witness. -/
def currentSong500 : SongRow :=
  { id := 7, position := 500, artist := "Abba".data, title := "Waterloo".data }

/-- An enabled artist rule with pattern "queen". -/
def queenRule : NotificationRule :=
  { id := 1, rule_type := RULE_TYPE_ARTIST, match_pattern := "queen".data, enabled := true }

/-- An enabled position_range rule (reserved rule type). -/
def prRule : NotificationRule :=
  { id := 3, rule_type := RULE_TYPE_POSITION_RANGE, match_pattern := "x".data, enabled := true }

/-- Settings with upcoming notifications enabled at offsets 1, 2, 3. -/
def settingsUpcoming : NotificationSettings :=
  { notification_targets := ["persistent_notification".data]
    notify_current_song := true
    notify_upcoming_song := true
    upcoming_notify_positions := [1, 2, 3] }

/-- A tick environment for the upcoming-notification witness: Queen at
position 499, the queen rule enabled, upcoming notifications on. -/
def upcomingEnv : TickEnv :=
  { npo_metadata := .ok none
    match_result := .ok none
    update_cover_art := .ok ()
    is_cover_art_cached := .ok false
    cover_art_lookup := (none, none)
    update_playlist_state := .ok ()
    settings := .ok settingsUpcoming
    rules := .ok [queenRule]
    song_at := fun p => .ok (if p = 499 then some queenSong else none) }

/-- The song resolved during the failing-cover-art tick. -/
def cexSong : SongRow :=
  { id := 5, position := 123, artist := "aa".data, title := "bb".data }

/-- The observation of the failing-cover-art tick, carrying a cover url. -/
def cexMeta : NpoMetadata :=
  { artist := "aa".data, title := "bb".data, cover_art_url := some "http://img".data }

/-- A tick environment in which the cover-art persistence write raises. -/
def cexEnv : TickEnv :=
  { npo_metadata := .ok (some cexMeta)
    match_result := .ok (some cexSong)
    update_cover_art := .exn
    is_cover_art_cached := .ok false
    cover_art_lookup := (none, none)
    update_playlist_state := .ok ()
    settings := .ok settingsUpcoming
    rules := .ok []
    song_at := fun _ => .ok none }

/-- A second-tick environment resolving the same song as cexEnv with
every side-effect oracle healthy. -/
def cexEnv2 : TickEnv :=
  { npo_metadata := .ok (some cexMeta)
    match_result := .ok (some cexSong)
    update_cover_art := .ok ()
    is_cover_art_cached := .ok false
    cover_art_lookup := (none, none)
    update_playlist_state := .ok ()
    settings := .ok settingsUpcoming
    rules := .ok []
    song_at := fun _ => .ok none }

/-- A sample observation for the metadata-client witness. -/
def mdSample : NpoMetadata := { artist := "x".data, title := "y".data }

/-! ## Basic facts about the fuzzy scores -/

theorem lcsLenAux_le_left : ∀ (fuel : Nat) (s t : Str), lcsLenAux fuel s t ≤ s.length := by
  intro fuel
  induction fuel with
  | zero => intro s t; simp [lcsLenAux]
  | succ f ih =>
    intro s t
    match s, t with
    | [], _ => simp [lcsLenAux]
    | _ :: _, [] => simp [lcsLenAux]
    | a :: as, b :: bs =>
      simp only [lcsLenAux]
      split
      · have := ih as bs
        simpa using Nat.succ_le_succ this
      · apply max_le
        · exact ih (a :: as) bs
        · exact le_trans (ih as (b :: bs)) (by simp)

theorem lcsLenAux_le_right : ∀ (fuel : Nat) (s t : Str), lcsLenAux fuel s t ≤ t.length := by
  intro fuel
  induction fuel with
  | zero => intro s t; simp [lcsLenAux]
  | succ f ih =>
    intro s t
    match s, t with
    | [], _ => simp [lcsLenAux]
    | _ :: _, [] => simp [lcsLenAux]
    | a :: as, b :: bs =>
      simp only [lcsLenAux]
      split
      · have := ih as bs
        simpa using Nat.succ_le_succ this
      · apply max_le
        · exact le_trans (ih (a :: as) bs) (by simp)
        · exact ih as (b :: bs)

theorem lcsLen_le_left (s t : Str) : lcsLen s t ≤ s.length := lcsLenAux_le_left _ s t

theorem lcsLen_le_right (s t : Str) : lcsLen s t ≤ t.length := lcsLenAux_le_right _ s t

theorem lcsLenAux_self : ∀ (fuel : Nat) (s : Str), s.length ≤ fuel → lcsLenAux fuel s s = s.length := by
  intro fuel
  induction fuel with
  | zero => intro s hs; interval_cases hl : s.length <;> simp_all [lcsLenAux, List.length_eq_zero.mp hl]
  | succ f ih =>
    intro s hs
    match s with
    | [] => simp [lcsLenAux]
    | a :: as =>
      simp only [lcsLenAux, if_pos rfl]
      have : as.length ≤ f := by simpa [Nat.succ_le_succ_iff] using hs
      simp [ih as this]

theorem lcsLen_self (s : Str) : lcsLen s s = s.length := by
  apply lcsLenAux_self
  omega

theorem fuzzRatio_nonneg (s t : Str) : 0 ≤ fuzzRatio s t := by
  unfold fuzzRatio
  split
  · norm_num
  · positivity

theorem fuzzRatio_le_100 (s t : Str) : fuzzRatio s t ≤ 100 := by
  unfold fuzzRatio
  split
  · norm_num
  · rename_i h
    have hpos : (0 : ℚ) < (s.length : ℚ) + (t.length : ℚ) := by
      have : 0 < s.length + t.length := Nat.pos_of_ne_zero h
      push_cast
      exact_mod_cast this
    rw [div_le_iff hpos]
    have h1 : lcsLen s t ≤ s.length := lcsLen_le_left s t
    have h2 : lcsLen s t ≤ t.length := lcsLen_le_right s t
    have : (lcsLen s t : ℚ) ≤ (s.length : ℚ) := by exact_mod_cast h1
    have : (lcsLen s t : ℚ) ≤ (t.length : ℚ) := by exact_mod_cast h2
    nlinarith

theorem fuzzRatio_self (s : Str) : fuzzRatio s s = 100 := by
  unfold fuzzRatio
  split
  · rfl
  · rename_i h
    rw [lcsLen_self]
    have hpos : (0 : ℚ) < (s.length : ℚ) + (s.length : ℚ) := by
      have : 0 < s.length + s.length := Nat.pos_of_ne_zero h
      exact_mod_cast this
    field_simp
    ring

theorem le_foldl_max (l : List ℚ) : ∀ (a : ℚ), a ≤ l.foldl max a := by
  induction l with
  | nil => intro a; simp
  | cons x xs ih => intro a; exact le_trans (le_max_left a x) (ih (max a x))

theorem mem_le_foldl_max (l : List ℚ) : ∀ (a x : ℚ), x ∈ l → x ≤ l.foldl max a := by
  induction l with
  | nil => intro a x hx; simp at hx
  | cons y ys ih =>
    intro a x hx
    rcases List.mem_cons.mp hx with h | h
    · subst h
      exact le_trans (le_max_right a x) (le_foldl_max ys (max a x))
    · exact ih (max a y) x h

theorem foldl_max_le (l : List ℚ) : ∀ (a b : ℚ), a ≤ b → (∀ x ∈ l, x ≤ b) → l.foldl max a ≤ b := by
  induction l with
  | nil => intro a b hab _; simpa using hab
  | cons y ys ih =>
    intro a b hab hall
    apply ih
    · exact max_le hab (hall y (by simp))
    · intro x hx; exact hall x (by simp [hx])

theorem self_mem_substrings (s : Str) : s ∈ substrings s := by
  unfold substrings
  apply List.mem_flatMap.mpr
  exact ⟨s, by simp [List.mem_tails], by simp [List.mem_inits]⟩

theorem partial_ratio_le_100 (s t : Str) : partial_ratio s t ≤ 100 := by
  unfold partial_ratio
  split <;>
  · apply foldl_max_le
    · norm_num
    · intro x hx
      rcases List.mem_map.mp hx with ⟨w, _, rfl⟩
      exact fuzzRatio_le_100 _ _

theorem partial_ratio_self (s : Str) : partial_ratio s s = 100 := by
  apply le_antisymm (partial_ratio_le_100 s s)
  unfold partial_ratio
  rw [if_pos le_rfl]
  have hm : (100 : ℚ) ∈ (substrings s).map (fuzzRatio s) := by
    apply List.mem_map.mpr
    exact ⟨s, self_mem_substrings s, fuzzRatio_self s⟩
  exact mem_le_foldl_max _ _ _ hm

theorem combined_score_le_100 (artist title : Str) (song : SongRow) :
    combined_score artist title song ≤ 100 := by
  unfold combined_score
  have h1 := partial_ratio_le_100 (pyLower artist) (pyLower song.artist)
  have h2 := partial_ratio_le_100 (pyLower title) (pyLower song.title)
  linarith

theorem combined_score_eq_100 (artist title : Str) (song : SongRow)
    (ha : pyLower artist = pyLower song.artist) (ht : pyLower title = pyLower song.title) :
    combined_score artist title song = 100 := by
  unfold combined_score
  rw [ha, ht, partial_ratio_self, partial_ratio_self]
  norm_num

/-! ## The scan loop of match_song -/

theorem matchStep_keep (artist title : Str) (st : Option SongRow × ℚ) (song : SongRow)
    (h : combined_score artist title song ≤ st.2) :
    matchStep artist title st song = st := by
  unfold matchStep
  rw [if_neg]
  intro hc
  exact absurd hc.1 (not_lt.mpr h)

theorem matchStep_below (artist title : Str) (st : Option SongRow × ℚ) (song : SongRow)
    (h : combined_score artist title song < FUZZY_MATCH_THRESHOLD) :
    matchStep artist title st song = st := by
  unfold matchStep
  rw [if_neg]
  intro hc
  exact absurd hc.2 (not_le.mpr h)

theorem foldl_matchStep_keep_le (artist title : Str) :
    ∀ (l : List SongRow) (st : Option SongRow × ℚ),
      (∀ s ∈ l, combined_score artist title s ≤ st.2) →
      l.foldl (matchStep artist title) st = st := by
  intro l
  induction l with
  | nil => intro st _; rfl
  | cons x xs ih =>
    intro st hall
    rw [List.foldl_cons, matchStep_keep artist title st x (hall x (by simp))]
    exact ih st fun s hs => hall s (by simp [hs])

theorem foldl_matchStep_below (artist title : Str) :
    ∀ (l : List SongRow) (st : Option SongRow × ℚ),
      (∀ s ∈ l, combined_score artist title s < FUZZY_MATCH_THRESHOLD) →
      l.foldl (matchStep artist title) st = st := by
  intro l
  induction l with
  | nil => intro st _; rfl
  | cons x xs ih =>
    intro st hall
    rw [List.foldl_cons, matchStep_below artist title st x (hall x (by simp))]
    exact ih st fun s hs => hall s (by simp [hs])

theorem foldl_matchStep_score_lt (artist title : Str) (C : ℚ) :
    ∀ (l : List SongRow) (st : Option SongRow × ℚ),
      st.2 < C →
      (∀ s ∈ l, combined_score artist title s < C) →
      (l.foldl (matchStep artist title) st).2 < C := by
  intro l
  induction l with
  | nil => intro st hst _; simpa using hst
  | cons x xs ih =>
    intro st hst hall
    rw [List.foldl_cons]
    apply ih
    · unfold matchStep
      split
      · exact hall x (by simp)
      · exact hst
    · intro s hs; exact hall s (by simp [hs])

theorem foldl_matchStep_isSome (artist title : Str) :
    ∀ (l : List SongRow) (st : Option SongRow × ℚ),
      st.1.isSome = true →
      ((l.foldl (matchStep artist title) st).1).isSome = true := by
  intro l
  induction l with
  | nil => intro st h; simpa using h
  | cons x xs ih =>
    intro st h
    rw [List.foldl_cons]
    apply ih
    unfold matchStep
    split
    · rfl
    · exact h

theorem foldl_matchStep_none_score (artist title : Str) :
    ∀ (l : List SongRow) (st : Option SongRow × ℚ),
      (st.1 = none → st.2 = 0) →
      ((l.foldl (matchStep artist title) st).1 = none →
        (l.foldl (matchStep artist title) st).2 = 0) := by
  intro l
  induction l with
  | nil => intro st h; simpa using h
  | cons x xs ih =>
    intro st h
    rw [List.foldl_cons]
    apply ih
    unfold matchStep
    split
    · intro hc; simp at hc
    · exact h

/-- If some row clears the threshold, the scan ends with a match. -/
theorem match_scan_isSome (artist title : Str) :
    ∀ (l : List SongRow) (st : Option SongRow × ℚ),
      (st.1 = none → st.2 = 0) →
      (∃ s ∈ l, FUZZY_MATCH_THRESHOLD ≤ combined_score artist title s) →
      ((l.foldl (matchStep artist title) st).1).isSome = true := by
  intro l
  induction l with
  | nil => intro st _ hex; simp at hex
  | cons x xs ih =>
    intro st hinv hex
    rw [List.foldl_cons]
    rcases hex with ⟨s, hs, hth⟩
    rcases List.mem_cons.mp hs with rfl | hmem
    · by_cases hst : st.1.isSome = true
      · apply foldl_matchStep_isSome
        unfold matchStep
        split
        · rfl
        · exact hst
      · have hnone : st.1 = none := by
          cases h : st.1
          · rfl
          · rw [h] at hst; simp at hst
        have h0 : st.2 = 0 := hinv hnone
        apply foldl_matchStep_isSome
        unfold matchStep
        rw [if_pos]
        · rfl
        · constructor
          · rw [h0]
            calc (0 : ℚ) < FUZZY_MATCH_THRESHOLD := by norm_num [FUZZY_MATCH_THRESHOLD]
              _ ≤ _ := hth
          · exact hth
    · apply ih
      · unfold matchStep
        split
        · intro hc; simp at hc
        · exact hinv
      · exact ⟨s, hmem, hth⟩

/-- Main characterization of the scan: the winner is the earliest row
attaining the maximal combined score, provided that score clears the
threshold. -/
theorem match_scan_first_best (artist title : Str) (songs : List SongRow) (i : Nat)
    (hi : i < songs.length)
    (hth : FUZZY_MATCH_THRESHOLD ≤ combined_score artist title songs[i])
    (hlt : ∀ k, (hk : k < i) → combined_score artist title songs[k] <
      combined_score artist title songs[i])
    (hle : ∀ k, (hk : k < songs.length) → combined_score artist title songs[k] ≤
      combined_score artist title songs[i]) :
    match_scan artist title songs = (some songs[i], combined_score artist title songs[i]) := by
  classical
  have hdecomp : songs = songs.take i ++ songs[i] :: songs.drop (i + 1) := by
    conv_lhs => rw [← List.take_append_drop i songs]
    rw [List.drop_eq_getElem_cons hi]
  set C := combined_score artist title songs[i] with hC
  unfold match_scan
  conv_lhs => rw [hdecomp]
  rw [List.foldl_append, List.foldl_cons]
  have hstep1 : ((songs.take i).foldl (matchStep artist title) (none, 0)).2 < C := by
    apply foldl_matchStep_score_lt
    · show (0 : ℚ) < C
      calc (0 : ℚ) < FUZZY_MATCH_THRESHOLD := by norm_num [FUZZY_MATCH_THRESHOLD]
        _ ≤ C := hth
    · intro s hs
      rcases List.getElem_of_mem hs with ⟨k, hk, rfl⟩
      have hki : k < i := by
        have := hk
        simp [List.length_take] at this
        omega
      have hkl : k < songs.length := lt_of_lt_of_le hki (le_of_lt hi)
      rw [List.getElem_take]
      exact hlt k hki
  have hstep2 : matchStep artist title ((songs.take i).foldl (matchStep artist title) (none, 0))
      songs[i] = (some songs[i], C) := by
    unfold matchStep
    rw [if_pos ⟨hstep1, hth⟩]
  rw [hstep2]
  apply foldl_matchStep_keep_le
  intro s hs
  rcases List.getElem_of_mem hs with ⟨k, hk, rfl⟩
  rw [List.getElem_drop]
  exact hle (i + 1 + k) (by have := hk; simp [List.length_drop] at this; omega)

/-! ## Claims about the matcher -/

/-- C3: match_song's candidate selection replaces the tracked best
candidate only on a strictly greater combined score; consequently, when
two candidates tie at the winning combined score, the
earlier-enumerated one is returned (first-seen tie-break). -/
theorem claim_C3 :
    (∀ (artist title : Str) (st : Option SongRow × ℚ) (song : SongRow),
      combined_score artist title song ≤ st.2 → matchStep artist title st song = st) ∧
    (∀ (artist title : Str) (songs : List SongRow) (i j : Nat)
      (hi : i < songs.length) (hj : j < songs.length),
      i < j →
      combined_score artist title songs[i] = combined_score artist title songs[j] →
      FUZZY_MATCH_THRESHOLD ≤ combined_score artist title songs[i] →
      (∀ k, (hk : k < songs.length) →
        combined_score artist title songs[k] ≤ combined_score artist title songs[i]) →
      (∀ k, (hk : k < i) →
        combined_score artist title songs[k] < combined_score artist title songs[i]) →
      match_song artist title songs = some songs[i]) := by
  constructor
  · exact matchStep_keep
  · intro artist title songs i j hi hj hij heq hth hle hlt
    unfold match_song
    rw [match_scan_first_best artist title songs i hi hth hlt hle]

/-- C3 witness: a two-row catalog whose rows tie at combined score 100;
the first row is returned. -/
theorem claim_C3_witness :
    combined_score ("aa".data) ("bb".data) rowAA = combined_score ("aa".data) ("bb".data) rowAA2 ∧
    FUZZY_MATCH_THRESHOLD ≤ combined_score ("aa".data) ("bb".data) rowAA ∧
    match_song ("aa".data) ("bb".data) [rowAA, rowAA2] = some rowAA := by
  have h100 : combined_score ("aa".data) ("bb".data) rowAA = 100 :=
    combined_score_eq_100 _ _ _ rfl rfl
  refine ⟨rfl, by rw [h100]; norm_num [FUZZY_MATCH_THRESHOLD], ?_⟩
  exact claim_C3.2 ("aa".data) ("bb".data) [rowAA, rowAA2] 0 1 (by decide) (by decide)
    (by decide) rfl
    (by simp only [List.getElem_cons_zero]; rw [h100]; norm_num [FUZZY_MATCH_THRESHOLD])
    (fun k hk => by
      have hk2 : k < 2 := by simpa using hk
      interval_cases k <;> exact le_of_eq rfl)
    (fun k hk => absurd hk (Nat.not_lt_zero k))

/-- C4 counterexample: the observation ("b", "d") is string-identical to
rowB, yet match_song over the catalog [rowAB, rowB] returns rowAB, the
earlier row, whose artist "ab" and title "cd" also attain partial_ratio
100 against the observation. -/
theorem claim_C4_counterexample :
    pyLower ("b".data) = pyLower rowB.artist ∧
    pyLower ("d".data) = pyLower rowB.title ∧
    match_song ("b".data) ("d".data) [rowAB, rowB] = some rowAB ∧
    rowAB ≠ rowB := by
  refine ⟨rfl, rfl, ?_, by decide⟩
  norm_num +decide [match_song, match_scan, matchStep, combined_score, partial_ratio,
    fuzzRatio, substrings, lcsLen, lcsLenAux, pyLower, rowAB, rowB, FUZZY_MATCH_THRESHOLD,
    List.tails, List.inits]

/-- C4 (amended): for a catalog entry E whose artist and title equal the
observation's strings up to case, match returns E with combined score
100, provided no earlier-enumerated catalog entry also attains combined
score 100 for that observation. -/
theorem claim_C4 :
    ∀ (artist title : Str) (songs : List SongRow) (i : Nat) (hi : i < songs.length),
      pyLower artist = pyLower songs[i].artist →
      pyLower title = pyLower songs[i].title →
      (∀ k, (hk : k < i) → combined_score artist title songs[k] < 100) →
      match_song artist title songs = some songs[i] ∧
        (match_scan artist title songs).2 = 100 := by
  intro artist title songs i hi ha ht hlt
  have h100 : combined_score artist title songs[i] = 100 :=
    combined_score_eq_100 artist title songs[i] ha ht
  have hscan := match_scan_first_best artist title songs i hi
    (by rw [h100]; norm_num [FUZZY_MATCH_THRESHOLD])
    (fun k hk => by rw [h100]; exact hlt k hk)
    (fun k hk => by rw [h100]; exact combined_score_le_100 artist title songs[k])
  constructor
  · unfold match_song
    rw [hscan]
  · rw [hscan, h100]

/-- C4 witness: a singleton catalog with identical observation strings
is matched with combined score 100. -/
theorem claim_C4_witness :
    pyLower ("aa".data) = pyLower rowAA.artist ∧
    pyLower ("bb".data) = pyLower rowAA.title ∧
    match_song ("aa".data) ("bb".data) [rowAA] = some rowAA ∧
    (match_scan ("aa".data) ("bb".data) [rowAA]).2 = 100 := by
  have h := claim_C4 ("aa".data) ("bb".data) [rowAA] 0 (by decide) rfl rfl
    (fun k hk => absurd hk (Nat.not_lt_zero k))
  exact ⟨rfl, rfl, h.1, h.2⟩

/-- C5: match_song returns none exactly when no catalog row attains a
combined score clearing the threshold 85; in particular it returns none
on the empty catalog; and a whitespace-only observation is still scored
rather than short-circuited (against a catalog row containing spaces it
even yields a match). -/
theorem claim_C5 :
    (∀ (artist title : Str) (songs : List SongRow),
      match_song artist title songs = none ↔
        ∀ s ∈ songs, combined_score artist title s < FUZZY_MATCH_THRESHOLD) ∧
    (∀ (artist title : Str), match_song artist title [] = none) ∧
    match_song (" ".data) (" ".data) [rowWs] = some rowWs := by
  have hmain : ∀ (artist title : Str) (songs : List SongRow),
      match_song artist title songs = none ↔
        ∀ s ∈ songs, combined_score artist title s < FUZZY_MATCH_THRESHOLD := by
    intro artist title songs
    constructor
    · intro hnone s hs
      by_contra hge
      have hth : FUZZY_MATCH_THRESHOLD ≤ combined_score artist title s := not_lt.mp hge
      have := match_scan_isSome artist title songs (none, 0) (fun _ => rfl) ⟨s, hs, hth⟩
      unfold match_song match_scan at hnone
      rw [hnone] at this
      simp at this
    · intro hall
      unfold match_song match_scan
      rw [foldl_matchStep_below artist title songs (none, 0) hall]
  refine ⟨hmain, fun artist title => (hmain artist title []).mpr (by simp), ?_⟩
  norm_num +decide [match_song, match_scan, matchStep, combined_score, partial_ratio,
    fuzzRatio, substrings, lcsLen, lcsLenAux, pyLower, rowWs, FUZZY_MATCH_THRESHOLD,
    List.tails, List.inits]

/-- C5 witness: the empty-catalog case instantiated concretely. -/
theorem claim_C5_witness : match_song ("x".data) ("y".data) [] = none :=
  claim_C5.2.1 ("x".data) ("y".data)

/-! ## Claims about the notification rule engine -/

theorem matches_rules_loop_iff (artistL titleL : Str) :
    ∀ rules : List NotificationRule,
      matches_rules_loop artistL titleL rules = true ↔
        ∃ r ∈ rules,
          (r.rule_type = RULE_TYPE_ARTIST ∧ pyLower r.match_pattern <:+: artistL) ∨
          (r.rule_type = RULE_TYPE_TITLE ∧ pyLower r.match_pattern <:+: titleL) := by
  intro rules
  induction rules with
  | nil => simp [matches_rules_loop]
  | cons r rest ih =>
    by_cases h1 : r.rule_type = RULE_TYPE_ARTIST ∧ pyLower r.match_pattern <:+: artistL
    · simp [matches_rules_loop, h1]
    · by_cases h2 : r.rule_type = RULE_TYPE_TITLE ∧ pyLower r.match_pattern <:+: titleL
      · simp [matches_rules_loop, h1, h2]
      · simp only [matches_rules_loop, if_neg h1, if_neg h2, ih]
        constructor
        · intro ⟨r2, hr2, hm⟩
          exact ⟨r2, by simp [hr2], hm⟩
        · intro ⟨r2, hr2, hm⟩
          rcases List.mem_cons.mp hr2 with rfl | hmem
          · rcases hm with hm | hm
            · exact absurd hm h1
            · exact absurd hm h2
          · exact ⟨r2, hmem, hm⟩

/-- C9: rule evaluation returns no-notify on an empty rule list; rules
are tested in stored order with short-circuit at the first match; the
result is true exactly when some rule matches, where an artist rule
matches by lowered-substring containment in the artist, a title rule in
the title; and a list of position_range rules never matches any song. -/
theorem claim_C9 :
    (∀ song : SongRow, matches_notification_rules song [] = false) ∧
    (∀ (song : SongRow) (r : NotificationRule) (rest : List NotificationRule),
      matches_rules_loop (pyLower song.artist) (pyLower song.title) (r :: rest) =
        ((decide (r.rule_type = RULE_TYPE_ARTIST ∧
            pyLower r.match_pattern <:+: pyLower song.artist) ||
          decide (r.rule_type = RULE_TYPE_TITLE ∧
            pyLower r.match_pattern <:+: pyLower song.title)) ||
          matches_rules_loop (pyLower song.artist) (pyLower song.title) rest)) ∧
    (∀ (song : SongRow) (rules : List NotificationRule),
      matches_notification_rules song rules = true ↔
        ∃ r ∈ rules,
          (r.rule_type = RULE_TYPE_ARTIST ∧
            pyLower r.match_pattern <:+: pyLower song.artist) ∨
          (r.rule_type = RULE_TYPE_TITLE ∧
            pyLower r.match_pattern <:+: pyLower song.title)) ∧
    (∀ (song : SongRow) (rules : List NotificationRule),
      (∀ r ∈ rules, r.rule_type = RULE_TYPE_POSITION_RANGE) →
      matches_notification_rules song rules = false) := by
  have hloop : ∀ (song : SongRow) (rules : List NotificationRule),
      matches_notification_rules song rules = true ↔
        ∃ r ∈ rules,
          (r.rule_type = RULE_TYPE_ARTIST ∧
            pyLower r.match_pattern <:+: pyLower song.artist) ∨
          (r.rule_type = RULE_TYPE_TITLE ∧
            pyLower r.match_pattern <:+: pyLower song.title) := by
    intro song rules
    unfold matches_notification_rules
    cases rules with
    | nil => simp
    | cons r rest =>
      rw [if_neg (by simp)]
      exact matches_rules_loop_iff _ _ (r :: rest)
  refine ⟨fun song => by simp [matches_notification_rules], ?_, hloop, ?_⟩
  · intro song r rest
    by_cases h1 : r.rule_type = RULE_TYPE_ARTIST ∧
        pyLower r.match_pattern <:+: pyLower song.artist
    · simp [matches_rules_loop, h1]
    · by_cases h2 : r.rule_type = RULE_TYPE_TITLE ∧
          pyLower r.match_pattern <:+: pyLower song.title
      · simp [matches_rules_loop, h1, h2]
      · simp [matches_rules_loop, h1, h2]
  · intro song rules hall
    cases hm : matches_notification_rules song rules with
    | false => rfl
    | true =>
      exfalso
      rcases (hloop song rules).mp hm with ⟨r, hr, hcase⟩
      have hpr := hall r hr
      rcases hcase with ⟨hty, _⟩ | ⟨hty, _⟩
      · rw [hpr] at hty
        exact absurd hty (by decide)
      · rw [hpr] at hty
        exact absurd hty (by decide)

/-- C9 witness: the queen song against an empty rule list and against a
position_range-only rule list. -/
theorem claim_C9_witness :
    matches_notification_rules queenSong [] = false ∧
    matches_notification_rules queenSong [prRule] = false ∧
    matches_notification_rules queenSong [queenRule] = true := by
  refine ⟨claim_C9.1 queenSong, claim_C9.2.2.2 queenSong [prRule] (by decide), ?_⟩
  exact (claim_C9.2.2.1 queenSong [queenRule]).mpr ⟨queenRule, by decide, Or.inl (by decide)⟩

/-! ## Claims about the upcoming-notification evaluation -/

theorem check_upcoming_loop_eq (env : TickEnv) (s : NotificationSettings) (pos : Int)
    (rl : List NotificationRule) (hr : env.rules = .ok rl)
    (hs : ∀ p : Int, env.song_at p ≠ .exn) :
    ∀ offsets : List Int,
      check_upcoming_loop env s pos offsets =
        (offsets.flatMap (fun o =>
          if pos - o < 1 then []
          else
            match env.song_at (pos - o) with
            | .ok (some u) =>
              if matches_notification_rules u (get_notification_rules rl true) then
                send_notification u s false
              else []
            | _ => []), false) := by
  intro offsets
  induction offsets with
  | nil => simp [check_upcoming_loop]
  | cons o rest ih =>
    by_cases h1 : pos - o < 1
    · simp [check_upcoming_loop, h1, ih]
    · cases h2 : env.song_at (pos - o) with
      | exn => exact absurd h2 (hs (pos - o))
      | ok mo =>
        cases mo with
        | none => simp [check_upcoming_loop, h1, h2, ih]
        | some u =>
          by_cases h3 : matches_notification_rules u (get_notification_rules rl true) = true
          · simp [check_upcoming_loop, h1, h2, h3, hr, ih]
          · simp [check_upcoming_loop, h1, h2, h3, hr, ih]

/-- C8: with a tracked current song, the upcoming check runs only when
the freshly re-read settings enable upcoming notifications; it then
walks every configured offset o, skips the non-positive candidate
positions current - o, fetches each remaining position's entry, and
dispatches with is_current = false exactly for the fetched entries that
match an enabled rule; no notification with is_current = true is ever
fired by it. -/
theorem claim_C8 :
    ∀ (env : TickEnv) (cur : SongRow) (s : NotificationSettings)
      (rl : List NotificationRule),
      env.settings = .ok s →
      env.rules = .ok rl →
      (∀ p : Int, env.song_at p ≠ .exn) →
      (s.notify_upcoming_song = false →
        async_check_upcoming_notifications env (some cur) = ([], false)) ∧
      (s.notify_upcoming_song = true →
        async_check_upcoming_notifications env (some cur) =
          (s.upcoming_notify_positions.flatMap (fun o =>
            if cur.position - o < 1 then []
            else
              match env.song_at (cur.position - o) with
              | .ok (some u) =>
                if matches_notification_rules u (get_notification_rules rl true) then
                  send_notification u s false
                else []
              | _ => []), false)) ∧
      (∀ sid tgt, Effect.notify sid true tgt ∉
        (async_check_upcoming_notifications env (some cur)).1) := by
  intro env cur s rl hset hr hs
  have hloop := check_upcoming_loop_eq env s cur.position rl hr hs
  refine ⟨?_, ?_, ?_⟩
  · intro hoff
    simp [async_check_upcoming_notifications, hset, hoff]
  · intro hon
    simp [async_check_upcoming_notifications, hset, hon, hloop]
  · intro sid tgt hmem
    simp only [async_check_upcoming_notifications, hset] at hmem
    by_cases hon : s.notify_upcoming_song = true
    · rw [if_neg (by simp [hon])] at hmem
      rw [hloop] at hmem
      simp only [List.mem_flatMap] at hmem
      rcases hmem with ⟨o, _, hmem⟩
      split at hmem
      · simp at hmem
      · split at hmem
        · split at hmem
          · unfold send_notification at hmem
            rcases List.mem_map.mp hmem with ⟨t, _, heq⟩
            simp at heq
          · simp at hmem
        · simp at hmem
  -- upcoming notifications disabled: the loop never runs
    · rw [if_pos (by simpa using hon)] at hmem
      simp at hmem

/-- C8 witness: the spec scenario with upcoming offsets 1, 2, 3,
current position 500, a queen artist rule, and a Queen song at catalog
position 499 fires exactly one is_current = false notification. -/
theorem claim_C8_witness :
    async_check_upcoming_notifications upcomingEnv (some currentSong500) =
      ([Effect.notify 42 false ("persistent_notification".data)], false) := by
  have h := (claim_C8 upcomingEnv currentSong500 settingsUpcoming [queenRule] rfl rfl
    (fun p => by simp [upcomingEnv])).2.1 rfl
  rw [h]
  decide

/-! ## Claims about the metadata client -/

/-- C6: get_current_metadata serves a fresh cache without attempting any
stage; on a cache miss it reports none exactly when each of the three
stages either raised (caught locally) or produced nothing, and the first
stage that yields an observation has it cached and returned immediately
with no later stage attempted. -/
theorem claim_C6 :
    ∀ (st : NpoClientState) (env : NpoEnv),
      (cache_fresh st env.now = true →
        get_current_metadata st env = (st, st.cached_metadata, [])) ∧
      (cache_fresh st env.now = false →
        ((get_current_metadata st env).2.1 = none ↔
          stage_yield env.npo_website = none ∧ stage_yield env.icecast = none ∧
            stage_yield env.onlineradiobox = none) ∧
        (∀ m, stage_yield env.npo_website = some m →
          get_current_metadata st env =
            (⟨some env.now, some m⟩, some m, [Stage.npo_website])) ∧
        (∀ m, stage_yield env.npo_website = none → stage_yield env.icecast = some m →
          get_current_metadata st env =
            (⟨some env.now, some m⟩, some m, [Stage.npo_website, Stage.icecast])) ∧
        (∀ m, stage_yield env.npo_website = none → stage_yield env.icecast = none →
          stage_yield env.onlineradiobox = some m →
          get_current_metadata st env =
            (⟨some env.now, some m⟩, some m,
              [Stage.npo_website, Stage.icecast, Stage.onlineradiobox]))) := by
  intro st env
  constructor
  · intro hfresh
    simp [get_current_metadata, hfresh]
  · intro hmiss
    refine ⟨?_, ?_, ?_, ?_⟩
    · cases h1 : stage_yield env.npo_website with
      | some m => simp [get_current_metadata, hmiss, h1]
      | none =>
        cases h2 : stage_yield env.icecast with
        | some m => simp [get_current_metadata, hmiss, h1, h2]
        | none =>
          cases h3 : stage_yield env.onlineradiobox with
          | some m => simp [get_current_metadata, hmiss, h1, h2, h3]
          | none => simp [get_current_metadata, hmiss, h1, h2, h3]
    · intro m h1
      simp [get_current_metadata, hmiss, h1]
    · intro m h1 h2
      simp [get_current_metadata, hmiss, h1, h2]
    · intro m h1 h2 h3
      simp [get_current_metadata, hmiss, h1, h2, h3]

/-- C6 witness: an empty cache with a succeeding first stage caches and
returns its observation after attempting only that stage. -/
theorem claim_C6_witness :
    cache_fresh ⟨none, none⟩ (100 : Int) = false ∧
    get_current_metadata ⟨none, none⟩ ⟨100, .ok (some mdSample), .exn, .exn⟩ =
      (⟨some 100, some mdSample⟩, some mdSample, [Stage.npo_website]) := by
  refine ⟨rfl, ?_⟩
  exact ((claim_C6 ⟨none, none⟩ ⟨100, .ok (some mdSample), .exn, .exn⟩).2 rfl).2.1 mdSample rfl

/-! ## Claims about upcoming songs -/

/-- C7: for every catalog with unique positions, every current position
and every count, get_upcoming_songs returns only entries strictly below
the current position, in strictly descending position order, at most
count of them; and the coordinator wrapper returns the empty list
whenever no song is currently tracked. -/
theorem claim_C7 :
    ∀ (songs : List SongRow) (current_position : Int) (count : Nat),
      (songs.map (fun s => s.position)).Nodup →
      (∀ s ∈ get_upcoming_songs songs current_position count,
        s.position < current_position) ∧
      (get_upcoming_songs songs current_position count).Pairwise
        (fun a b => b.position < a.position) ∧
      (get_upcoming_songs songs current_position count).length ≤ count ∧
      (∀ (songs2 : List SongRow) (count2 : Nat),
        async_get_upcoming_songs none songs2 count2 = []) ∧
      (∀ (songs2 : List SongRow) (count2 : Nat),
        async_get_upcoming_songs (some ⟨none⟩) songs2 count2 = []) := by
  intro songs current_position count hnodup
  unfold get_upcoming_songs
  haveI hTot : IsTotal SongRow (fun a b => b.position ≤ a.position) :=
    ⟨fun a b => le_total b.position a.position⟩
  haveI hTrans : IsTrans SongRow (fun a b => b.position ≤ a.position) :=
    ⟨fun a b c h1 h2 => le_trans h2 h1⟩
  set l := songs.filter (fun s => decide (s.position < current_position)) with hl
  set sorted := List.insertionSort (fun a b => b.position ≤ a.position) l with hsorted
  have hperm : List.Perm sorted l := List.perm_insertionSort _ l
  have hmeml : ∀ s ∈ l, s.position < current_position := by
    intro s hs
    have := List.of_mem_filter hs
    simpa using this
  refine ⟨?_, ?_, ?_, fun songs2 count2 => rfl, fun songs2 count2 => rfl⟩
  · intro s hs
    have hs2 : s ∈ sorted := List.mem_of_mem_take hs
    exact hmeml s (hperm.mem_iff.mp hs2)
  · have hsortpw : sorted.Pairwise (fun a b => b.position ≤ a.position) :=
      List.sorted_insertionSort _ l
    have hlnodup : (l.map (fun s => s.position)).Nodup := by
      apply List.Nodup.sublist _ hnodup
      exact List.Sublist.map _ (List.filter_sublist songs)
    have hsortnodup : (sorted.map (fun s => s.position)).Nodup :=
      ((hperm.map (fun s => s.position)).nodup_iff).mpr hlnodup
    have hsortne : sorted.Pairwise (fun a b => a.position ≠ b.position) :=
      List.pairwise_map.mp hsortnodup
    have hstrict : sorted.Pairwise (fun a b => b.position < a.position) := by
      have hand := hsortpw.and hsortne
      exact hand.imp (fun h => lt_of_le_of_ne h.1 (fun he => h.2 he.symm))
    exact hstrict.sublist (List.take_sublist count sorted)
  · simpa using List.length_take_le count sorted

/-- C7 witness: a two-row catalog at positions 499 and 500 with current
position 500 and count 1 returns exactly the entry at 499. -/
theorem claim_C7_witness :
    (([queenSong, currentSong500]).map (fun s => s.position)).Nodup ∧
    get_upcoming_songs [queenSong, currentSong500] 500 1 = [queenSong] ∧
    (∀ s ∈ get_upcoming_songs [queenSong, currentSong500] 500 1, s.position < 500) := by
  refine ⟨by decide, by decide, (claim_C7 [queenSong, currentSong500] 500 1 (by decide)).1⟩

/-! ## Claims about the coordinator tick -/

theorem fetch_effects_shape (env : TickEnv) (song : SongRow) (url : Option Str) :
    ∀ e ∈ (fetch_and_cache_cover_art env song url).1,
      (∃ u, e = Effect.update_cover_art song.id u) ∨ e = Effect.cover_art_lookup song.id := by
  intro e he
  unfold fetch_and_cache_cover_art at he
  split at he
  · simp at he
    exact Or.inl ⟨_, he⟩
  · split at he
    · simp at he
    · simp at he
    · split at he
      · simp at he
        rcases he with he | he
        · exact Or.inr he
        · exact Or.inl ⟨_, he⟩
      · simp at he
        exact Or.inr he

theorem tick_transition_last (last : Option Nat) (prev : Option SongRow) (env : TickEnv)
    (md : NpoMetadata) (song : SongRow)
    (h1 : env.npo_metadata = .ok (some md))
    (h2 : env.match_result = .ok (some song))
    (h3 : some song.id ≠ last) :
    (async_update_data last prev env).1 = some song.id := by
  unfold async_update_data
  rw [h1, h2]
  dsimp only
  rw [if_pos h3]
  rcases hfc : fetch_and_cache_cover_art env song md.cover_art_url with ⟨e3, r3⟩
  cases r3
  · cases hp : env.update_playlist_state with
    | exn => simp [hfc, hp]
    | ok u =>
      rcases hc5 : check_and_send_notifications env song true with ⟨e5, r5⟩
      cases r5
      · rcases hc6 : async_check_upcoming_notifications env prev with ⟨e6, r6⟩
        cases r6 <;> simp [hfc, hp, hc5, hc6]
      · simp [hfc, hp, hc5]
  · simp [hfc]

/-- C1 (amended): on a transition tick the side effects run in the fixed
order (cover art, persistence, current-song notification,
upcoming-window notification), but they are not independently
fault-tolerant: whichever of the four steps raises first — the cover-art
step, the persistence write, the current-song notification evaluation,
or the upcoming-window evaluation — the tick is reported as
UpdateFailed and the steps after it are not attempted; only when no step
raises are all four attempted, in order.  The tracked song id is updated
regardless. -/
theorem claim_C1 :
    ∀ (last : Option Nat) (prev : Option SongRow) (env : TickEnv)
      (md : NpoMetadata) (song : SongRow),
      env.npo_metadata = .ok (some md) →
      env.match_result = .ok (some song) →
      some song.id ≠ last →
      (async_update_data last prev env).1 = some song.id ∧
      ((fetch_and_cache_cover_art env song md.cover_art_url).2 = true →
        async_update_data last prev env =
          (some song.id, .update_failed,
            (fetch_and_cache_cover_art env song md.cover_art_url).1) ∧
        (∀ p sid, Effect.persist_state p sid ∉
          (fetch_and_cache_cover_art env song md.cover_art_url).1) ∧
        (∀ sid isC tgt, Effect.notify sid isC tgt ∉
          (fetch_and_cache_cover_art env song md.cover_art_url).1)) ∧
      ((fetch_and_cache_cover_art env song md.cover_art_url).2 = false →
        env.update_playlist_state = .exn →
        async_update_data last prev env =
          (some song.id, .update_failed,
            (fetch_and_cache_cover_art env song md.cover_art_url).1 ++
              [Effect.persist_state song.position song.id]) ∧
        (∀ sid isC tgt, Effect.notify sid isC tgt ∉
          (async_update_data last prev env).2.2)) ∧
      ((fetch_and_cache_cover_art env song md.cover_art_url).2 = false →
        env.update_playlist_state = .ok () →
        (check_and_send_notifications env song true).2 = true →
        async_update_data last prev env =
          (some song.id, .update_failed,
            (fetch_and_cache_cover_art env song md.cover_art_url).1 ++
              [Effect.persist_state song.position song.id] ++
              (check_and_send_notifications env song true).1)) ∧
      ((fetch_and_cache_cover_art env song md.cover_art_url).2 = false →
        env.update_playlist_state = .ok () →
        (check_and_send_notifications env song true).2 = false →
        (async_check_upcoming_notifications env prev).2 = true →
        async_update_data last prev env =
          (some song.id, .update_failed,
            (fetch_and_cache_cover_art env song md.cover_art_url).1 ++
              [Effect.persist_state song.position song.id] ++
              (check_and_send_notifications env song true).1 ++
              (async_check_upcoming_notifications env prev).1)) ∧
      ((fetch_and_cache_cover_art env song md.cover_art_url).2 = false →
        env.update_playlist_state = .ok () →
        (check_and_send_notifications env song true).2 = false →
        (async_check_upcoming_notifications env prev).2 = false →
        async_update_data last prev env =
          (some song.id, .song_data song true,
            (fetch_and_cache_cover_art env song md.cover_art_url).1 ++
              [Effect.persist_state song.position song.id] ++
              (check_and_send_notifications env song true).1 ++
              (async_check_upcoming_notifications env prev).1)) := by
  intro last prev env md song h1 h2 h3
  refine ⟨tick_transition_last last prev env md song h1 h2 h3, ?_, ?_, ?_, ?_, ?_⟩
  · intro hr3
    rcases hfc : fetch_and_cache_cover_art env song md.cover_art_url with ⟨e3, r3⟩
    rw [hfc] at hr3
    simp only at hr3
    subst hr3
    have heq : async_update_data last prev env = (some song.id, .update_failed, e3) := by
      unfold async_update_data
      rw [h1, h2]
      dsimp only
      rw [if_pos h3, hfc]
    refine ⟨heq, ?_, ?_⟩
    · intro p sid hmem
      rcases fetch_effects_shape env song md.cover_art_url _ (by rw [hfc]; exact hmem) with
        ⟨u, he⟩ | he <;> simp at he
    · intro sid isC tgt hmem
      rcases fetch_effects_shape env song md.cover_art_url _ (by rw [hfc]; exact hmem) with
        ⟨u, he⟩ | he <;> simp at he
  · intro hr3 hp
    rcases hfc : fetch_and_cache_cover_art env song md.cover_art_url with ⟨e3, r3⟩
    rw [hfc] at hr3
    simp only at hr3
    subst hr3
    have heq : async_update_data last prev env =
        (some song.id, .update_failed, e3 ++ [Effect.persist_state song.position song.id]) := by
      unfold async_update_data
      rw [h1, h2]
      dsimp only
      rw [if_pos h3, hfc, hp]
    refine ⟨heq, ?_⟩
    intro sid isC tgt hmem
    rw [heq] at hmem
    simp only [List.mem_append] at hmem
    rcases hmem with hmem | hmem
    · rcases fetch_effects_shape env song md.cover_art_url _ (by rw [hfc]; exact hmem) with
        ⟨u, he⟩ | he <;> simp at he
    · simp at hmem
  · intro hr3 hp hr5
    rcases hfc : fetch_and_cache_cover_art env song md.cover_art_url with ⟨e3, r3⟩
    rw [hfc] at hr3
    simp only at hr3
    subst hr3
    rcases hc5 : check_and_send_notifications env song true with ⟨e5, r5⟩
    rw [hc5] at hr5
    simp only at hr5
    subst hr5
    unfold async_update_data
    rw [h1, h2]
    dsimp only
    rw [if_pos h3, hfc, hp, hc5]
  · intro hr3 hp hr5 hr6
    rcases hfc : fetch_and_cache_cover_art env song md.cover_art_url with ⟨e3, r3⟩
    rw [hfc] at hr3
    simp only at hr3
    subst hr3
    rcases hc5 : check_and_send_notifications env song true with ⟨e5, r5⟩
    rw [hc5] at hr5
    simp only at hr5
    subst hr5
    rcases hc6 : async_check_upcoming_notifications env prev with ⟨e6, r6⟩
    rw [hc6] at hr6
    simp only at hr6
    subst hr6
    unfold async_update_data
    rw [h1, h2]
    dsimp only
    rw [if_pos h3, hfc, hp, hc5, hc6]
  · intro hr3 hp hr5 hr6
    rcases hfc : fetch_and_cache_cover_art env song md.cover_art_url with ⟨e3, r3⟩
    rw [hfc] at hr3
    simp only at hr3
    subst hr3
    rcases hc5 : check_and_send_notifications env song true with ⟨e5, r5⟩
    rw [hc5] at hr5
    simp only at hr5
    subst hr5
    rcases hc6 : async_check_upcoming_notifications env prev with ⟨e6, r6⟩
    rw [hc6] at hr6
    simp only at hr6
    subst hr6
    unfold async_update_data
    rw [h1, h2]
    dsimp only
    rw [if_pos h3, hfc, hp, hc5, hc6]

/-- C1 counterexample: a transition tick in which the very first
side-effect step (the cover-art database write) raises; the tick is
reported failed and neither the PlaybackState persistence nor any
notification dispatch is attempted, refuting per-step fault
tolerance. -/
theorem claim_C1_counterexample :
    async_update_data none none cexEnv =
      (some 5, TickResult.update_failed, [Effect.update_cover_art 5 ("http://img".data)]) ∧
    (∀ p sid, Effect.persist_state p sid ∉ (async_update_data none none cexEnv).2.2) ∧
    (∀ sid isC tgt, Effect.notify sid isC tgt ∉ (async_update_data none none cexEnv).2.2) := by
  have he : (async_update_data none none cexEnv).2.2 =
      [Effect.update_cover_art 5 ("http://img".data)] := by decide
  refine ⟨by decide, ?_, ?_⟩
  · intro p sid hmem
    rw [he] at hmem
    simp at hmem
  · intro sid isC tgt hmem
    rw [he] at hmem
    simp at hmem

/-- C1 witness: the cexEnv tick instantiating the amended claim's
cover-art-raise branch. -/
theorem claim_C1_witness :
    (fetch_and_cache_cover_art cexEnv cexSong cexMeta.cover_art_url).2 = true ∧
    async_update_data none none cexEnv =
      (some 5, TickResult.update_failed,
        (fetch_and_cache_cover_art cexEnv cexSong cexMeta.cover_art_url).1) := by
  refine ⟨by decide, ?_⟩
  have h := ((claim_C1 none none cexEnv cexMeta cexSong rfl rfl (by decide)).2.1
    (by decide)).1
  exact h

/-- C2: a tick whose resolved song id equals the tracked id is a no-op:
the tracked id is unchanged, the result reports no song change, and no
cover-art lookup, persistence write or notification dispatch is
attempted. -/
theorem claim_C2 :
    ∀ (last : Option Nat) (prev : Option SongRow) (env : TickEnv)
      (md : NpoMetadata) (song : SongRow),
      env.npo_metadata = .ok (some md) →
      env.match_result = .ok (some song) →
      last = some song.id →
      async_update_data last prev env = (last, .song_data song false, []) := by
  intro last prev env md song h1 h2 h3
  subst h3
  unfold async_update_data
  rw [h1, h2]
  simp

/-- C2 witness: the second-tick environment resolving the already
tracked song id 5 performs no side effects. -/
theorem claim_C2_witness :
    async_update_data (some 5) none cexEnv2 =
      (some 5, TickResult.song_data cexSong false, []) :=
  claim_C2 (some 5) none cexEnv2 cexMeta cexSong rfl rfl rfl

/-- C10: on a transition tick the tracked id is updated before any side
effect runs, so it is the new song's id even when a side effect raises
and the tick fails; a subsequent tick resolving the same id is then a
no-op and never retries the skipped side effects. -/
theorem claim_C10 :
    ∀ (last : Option Nat) (prev prev2 : Option SongRow) (env env2 : TickEnv)
      (md md2 : NpoMetadata) (song song2 : SongRow),
      env.npo_metadata = .ok (some md) →
      env.match_result = .ok (some song) →
      some song.id ≠ last →
      env2.npo_metadata = .ok (some md2) →
      env2.match_result = .ok (some song2) →
      song2.id = song.id →
      (async_update_data last prev env).1 = some song.id ∧
      async_update_data (async_update_data last prev env).1 prev2 env2 =
        (some song.id, .song_data song2 false, []) := by
  intro last prev prev2 env env2 md md2 song song2 h1 h2 h3 h4 h5 h6
  have hlast := tick_transition_last last prev env md song h1 h2 h3
  refine ⟨hlast, ?_⟩
  rw [hlast]
  unfold async_update_data
  rw [h4, h5]
  dsimp only
  rw [h6]
  simp

/-- C10 witness: the failing cexEnv tick records id 5 as tracked; the
healthy cexEnv2 tick then treats the same song as unchanged and fires
nothing. -/
theorem claim_C10_witness :
    (async_update_data none none cexEnv).1 = some 5 ∧
    async_update_data (async_update_data none none cexEnv).1 none cexEnv2 =
      (some 5, TickResult.song_data cexSong false, []) :=
  claim_C10 none none none cexEnv cexEnv2 cexMeta cexMeta cexSong cexSong rfl rfl
    (by decide) rfl rfl rfl
